import Mathlib

set_option autoImplicit false

namespace Eco

/-- Calendar timestamp as stored by the persistence layer (Django `DateTimeField`).
The components are exactly those read back by `strftime("%Y-%m-%d %H:%M:%S")`. -/
structure DateTime where
  year : Nat
  month : Nat
  day : Nat
  hour : Nat
  minute : Nat
  second : Nat
  deriving DecidableEq, Repr

/-- Chronological sort key for timestamps.  The radixes strictly bound each
component of a valid calendar datetime (month ≤ 12, day ≤ 31, hour ≤ 23,
minute/second ≤ 59), so on valid datetimes the key is strictly monotone in
chronological order; `order_by` comparisons are modelled through it. -/
def DateTime.code (t : DateTime) : Nat :=
  ((((t.year * 13 + t.month) * 32 + t.day) * 24 + t.hour) * 60 + t.minute) * 60 + t.second

/-- Zero-pad a numeral to width 2, as `%m`, `%d`, `%H`, `%M`, `%S` do. -/
def pad2 (n : Nat) : String :=
  if n < 10 then "0" ++ toString n else toString n

/-- Zero-pad a numeral to width 4, as `%Y` does in CPython. -/
def pad4 (n : Nat) : String :=
  if n < 10 then "000" ++ toString n
  else if n < 100 then "00" ++ toString n
  else if n < 1000 then "0" ++ toString n
  else toString n

/-- Model of `datetime.strftime("%Y-%m-%d %H:%M:%S")`. -/
def DateTime.strftime (t : DateTime) : String :=
  pad4 t.year ++ "-" ++ pad2 t.month ++ "-" ++ pad2 t.day ++ " " ++
    pad2 t.hour ++ ":" ++ pad2 t.minute ++ ":" ++ pad2 t.second

/-- dashboard/models.py `Organization`: root tenant entity.  `password` stores the
hashed credential.  `status`/`deleted_at` come from `BaseModel` (soft delete). -/
structure Organization where
  id : Nat
  name : String
  email : String
  password : String
  status : String := "ACTIVE"
  deleted_at : Option DateTime := none
  deriving DecidableEq, Repr

/-- dashboard/models.py `Category`. -/
structure Category where
  id : Nat
  name : String
  status : String := "ACTIVE"
  deleted_at : Option DateTime := none
  deriving DecidableEq, Repr

/-- dashboard/models.py `Zone`. -/
structure Zone where
  id : Nat
  name : String
  status : String := "ACTIVE"
  deleted_at : Option DateTime := none
  deriving DecidableEq, Repr

/-- dashboard/models.py `Device`.  `organization` is a nullable foreign key,
hence `Option Nat`; `category`/`zone` are non-nullable foreign keys.
`max_consumption` is a numeric scalar the views never compute with, so an
integer stand-in suffices. -/
structure Device where
  id : Nat
  name : String
  categoryId : Nat
  zoneId : Nat
  max_consumption : Int
  organizationId : Option Nat
  status : String := "ACTIVE"
  deleted_at : Option DateTime := none
  deriving DecidableEq, Repr

/-- A measurement row as the view layer sees it through dynamic attribute
probing (`getattr(m, 'valor'/'value'/'reading', None)` and
`getattr(m, 'fecha_hora'/'timestamp'/'measured_at'/'created_at', None)`).
Under the schema of dashboard/models.py the populated attributes are
`value`, `timestamp` and `created_at` (all non-null) while `valor`,
`reading`, `fecha_hora` and `measured_at` are absent; the probed attributes
are optional here because the view code is written to tolerate legacy schema
variants in which e.g. only `reading` is populated.  `timestamp` stays
mandatory: `order_by('-timestamp')` requires that column to exist.
Numeric readings are floats the views only pass through, so an integer
stand-in suffices. -/
structure MeasurementRow where
  id : Nat
  deviceId : Nat
  timestamp : DateTime
  created_at : DateTime
  fecha_hora : Option DateTime := none
  measured_at : Option DateTime := none
  valor : Option Int := none
  value : Option Int := none
  reading : Option Int := none
  status : String := "ACTIVE"
  deleted_at : Option DateTime := none
  deriving DecidableEq, Repr

/-- dashboard/models.py `Alert`.  `alert_type` is a stored string; `severity`
is an optional legacy attribute the views probe for (absent in the current
schema). -/
structure Alert where
  id : Nat
  deviceId : Nat
  alert_type : String
  message : String
  is_resolved : Bool := false
  created_at : DateTime
  severity : Option String := none
  status : String := "ACTIVE"
  deleted_at : Option DateTime := none
  deriving DecidableEq, Repr

/-- The persistence store: one list per table. -/
structure Store where
  organizations : List Organization
  categories : List Category
  zones : List Zone
  devices : List Device
  measurements : List MeasurementRow
  alerts : List Alert
  deriving DecidableEq, Repr

/-- Session state: the three keys written by the login view, plus any other
session-scoped keys (`extra`). -/
structure Session where
  organization_id : Option Nat := none
  organization_name : Option String := none
  is_logged_in : Option Bool := none
  extra : List (String × String) := []
  deriving DecidableEq, Repr

/-- Python truthiness of an optional integer (`if org_id:`): `None` and `0`
are falsy. -/
def truthyId : Option Nat → Bool
  | none => false
  | some n => n != 0

/-- Python `a or b` on strings: the empty string is falsy. -/
def pyOrS (a b : String) : String :=
  if a = "" then b else a

/-- Python `a or b` where `a` is an optional value whose payload is always
truthy (e.g. a datetime): `None` falls through. -/
def pyOrO {α : Type} (a b : Option α) : Option α :=
  match a with
  | none => b
  | some x => some x

/-- Python `a or b` where `a` is an optional count: `None` and `0` fall
through to `b`. -/
def pyOrNat : Option Nat → Nat → Nat
  | none, b => b
  | some n, b => if n = 0 then b else n

/-- Sort descending by a numeric key, modelling `order_by('-field')`. -/
def sortDescBy {α : Type} (key : α → Nat) (l : List α) : List α :=
  l.insertionSort (fun a b => key b ≤ key a)

/-- Python dict assignment `m[k] = v`: overwrite the entry if the key is
present, append it otherwise. -/
def dictSet (m : List (String × Nat)) (k : String) (v : Nat) : List (String × Nat) :=
  if m.any (fun p => p.1 == k) then m.map (fun p => if p.1 == k then (k, v) else p)
  else m ++ [(k, v)]

/-- Build a Python dict by inserting the pairs left to right (later pairs
overwrite earlier ones with the same key), as a dict comprehension or an
assignment loop does. -/
def dictOfPairs (ps : List (String × Nat)) : List (String × Nat) :=
  ps.foldl (fun m p => dictSet m p.1 p.2) []

/-- Python `m.get(k)`: the stored value, or `None` when absent. -/
def dictGet? (m : List (String × Nat)) (k : String) : Option Nat :=
  (m.find? (fun p => p.1 == k)).map (fun p => p.2)

/-- Profile object optionally linked to an auth user, carrying an
`organization` foreign key (dashboard/views.py probes it with `getattr`). -/
structure Profile where
  organization : Option Organization
  deriving DecidableEq, Repr

/-- Authenticated principal (`request.user`): `is_authenticated` is false for
the anonymous user; `profile` and `organization` are the attributes
`_get_organization` probes. -/
structure AuthUser where
  is_authenticated : Bool
  profile : Option Profile := none
  organization : Option Organization := none
  deriving DecidableEq, Repr

/-- dashboard/views.py `_get_organization(request)`: try the session
`organization_id` (Python truthiness, then `Organization.objects.get`,
swallowing `DoesNotExist`); if that yields nothing and the user is
authenticated, try `user.profile.organization`, then `user.organization`. -/
def get_organization (store : Store) (sess : Session) (user : Option AuthUser) :
    Option Organization :=
  let org : Option Organization :=
    if truthyId sess.organization_id then
      match sess.organization_id with
      | some oid => store.organizations.find? (fun o => o.id == oid)
      | none => none
    else none
  match org with
  | some o => some o
  | none =>
    match user with
    | none => none
    | some u =>
      if u.is_authenticated then
        let fromProfile : Option Organization :=
          match u.profile with
          | some p => p.organization
          | none => none
        match fromProfile with
        | some o => some o
        | none => u.organization
      else none

/-- The organization id a protected dashboard view proceeds with:
`organization_id = org.id if org else request.session.get('organization_id')`
followed by the `if not organization_id:` truthiness guard.  `none` means the
view redirects to login with the invalid-session message. -/
def viewOrgId (store : Store) (sess : Session) (user : Option AuthUser) : Option Nat :=
  let oid : Option Nat :=
    match get_organization store sess user with
    | some org => some org.id
    | none => sess.organization_id
  match oid with
  | some n => if n ≠ 0 then some n else none
  | none => none

/-- Outcome of a protected view: redirect by the `login_required` decorator,
redirect with the invalid-session message, or a rendered result. -/
inductive ViewOutcome (α : Type) where
  | unauthorized
  | invalidSession
  | ok (value : α)
  deriving DecidableEq, Repr

/-- Shared shape of every protected dashboard view: the `login_required`
decorator checks `request.session.get('is_logged_in', False)`; then the view
resolves an organization id (redirecting on failure) and runs its body with
that id. -/
def runProtected {α : Type} (store : Store) (sess : Session) (user : Option AuthUser)
    (body : Nat → α) : ViewOutcome α :=
  if sess.is_logged_in.getD false = false then .unauthorized
  else
    match viewOrgId store sess user with
    | some oid => .ok (body oid)
    | none => .invalidSession

/-- Model of Django's salted one-way password hasher contract
(`make_password`): the stored form is tagged with the algorithm marker, so it
never coincides with the raw password, and `check_password` verifies a raw
password against it. -/
def make_password (raw : String) : String :=
  "pbkdf2_sha256$" ++ raw

/-- Model of Django's `check_password(raw, stored)`. -/
def check_password (raw stored : String) : Bool :=
  stored == make_password raw

/-- Result of a POST to the login view. -/
inductive LoginResult where
  | redirectDashboard
  | renderError (error_message : String)
  deriving DecidableEq, Repr

/-- login/views.py `login_view` (POST branch): look the organization up by
email, verify the password, and on success write the three session keys;
on a wrong password or an unknown email re-render the form with the literal
error message, leaving the session untouched. -/
def login_view (store : Store) (sess : Session) (email password : String) :
    LoginResult × Session :=
  match store.organizations.find? (fun o => o.email == email) with
  | some organization =>
    if check_password password organization.password then
      (.redirectDashboard,
        { sess with
            organization_id := some organization.id
            organization_name := some organization.name
            is_logged_in := some true })
    else (.renderError "Contraseña incorrecta", sess)
  | none => (.renderError "No existe una organización con ese correo electrónico", sess)

/-- login/views.py `logout_view`: delete each of the three keys if present
(`if k in request.session: del request.session[k]`), leaving every other
session key alone. -/
def logout_view_login (sess : Session) : Session :=
  { sess with organization_id := none, organization_name := none, is_logged_in := none }

/-- dashboard/views.py `logout_view`: `request.session.flush()` empties the
whole session (every key, including session-scoped extras). -/
def logout_view_dashboard (_sess : Session) : Session :=
  { organization_id := none, organization_name := none, is_logged_in := none, extra := [] }

/-- Submitted registration form data (register/views.py).  A missing POST key
reads back as the empty string. -/
structure RegForm where
  name : String
  email : String
  password : String
  confirm_password : String
  deriving DecidableEq, Repr

/-- Required-field errors: every form field (`name`, `email`, `password`,
`confirm_password`) is required, so an empty submission puts a field error on
that field and removes it from `cleaned_data`.  (The email format validator
is internal to the form library and not modelled; it is irrelevant to the
claims.) -/
def requiredErrors (f : RegForm) : List (String × String) :=
  (if f.name = "" then [("name", "This field is required.")] else []) ++
    (if f.email = "" then [("email", "This field is required.")] else []) ++
    (if f.password = "" then [("password", "This field is required.")] else []) ++
    (if f.confirm_password = "" then [("confirm_password", "This field is required.")] else [])

/-- Uniqueness errors from the model's `unique=True` constraints on `name` and
`email`, checked for fields that passed field validation. -/
def uniqueErrors (store : Store) (f : RegForm) : List (String × String) :=
  (if f.name ≠ "" ∧ store.organizations.any (fun o => o.name == f.name) then
    [("name", "Organization with this Name already exists.")] else []) ++
    (if f.email ≠ "" ∧ store.organizations.any (fun o => o.email == f.email) then
      [("email", "Organization with this Email already exists.")] else [])

/-- `OrganizationRegistrationForm.clean`: when both passwords survived field
validation (`cleaned_data.get` is truthy) and differ, attach the mismatch
error to `confirm_password`. -/
def cleanErrors (f : RegForm) : List (String × String) :=
  if f.password ≠ "" ∧ f.confirm_password ≠ "" ∧ f.password ≠ f.confirm_password then
    [("confirm_password", "Las contraseñas no coinciden")]
  else []

/-- All validation errors of `OrganizationRegistrationForm` for a submission
against the current store. -/
def form_errors (store : Store) (f : RegForm) : List (String × String) :=
  requiredErrors f ++ uniqueErrors store f ++ cleanErrors f

/-- Auto-assigned primary key for a newly inserted Organization row. -/
def next_pk (store : Store) : Nat :=
  (store.organizations.map (fun o => o.id)).foldr max 0 + 1

/-- Result of a POST to the registration view. -/
inductive RegisterResult where
  | redirectRegister
  | renderFormErrors (errors : List (String × String))
  deriving DecidableEq, Repr

/-- register/views.py `register_organization` (POST branch): if the form
validates, `form.save()` persists an Organization whose `password` field is
`make_password(cleaned_data['password'])`, then redirects; otherwise the form
is re-rendered with its errors and nothing is persisted. -/
def register_organization (store : Store) (f : RegForm) : RegisterResult × Store :=
  let errs := form_errors store f
  if errs.isEmpty then
    let organization : Organization :=
      { id := next_pk store, name := f.name, email := f.email,
        password := make_password f.password }
    (.redirectRegister, { store with organizations := store.organizations ++ [organization] })
  else (.renderFormErrors errs, store)

/-- The tenant-scoped device queryset
`Device.objects.filter(organization_id=organization_id)`.  Note the absence
of any soft-delete (`deleted_at`/`status`) filter in the source. -/
def tenantDevices (store : Store) (oid : Nat) : List Device :=
  store.devices.filter (fun d => d.organizationId == some oid)

/-- The joined column `category__name` of a device: the name of its category
row, or SQL NULL (`none`) when the reference does not resolve. -/
def categoryName? (store : Store) (d : Device) : Option String :=
  (store.categories.find? (fun c => c.id == d.categoryId)).map (fun c => c.name)

/-- The dict-comprehension key `c['category__name'] or 'Sin categoría'`: NULL
and the empty string both collapse to the sentinel label. -/
def catLabel : Option String → String
  | none => "Sin categoría"
  | some s => if s = "" then "Sin categoría" else s

/-- The multiset of `category__name` values over the tenant's devices; the
grouped query `.values('category__name').annotate(conteo=Count('id'))`
returns one row per distinct value with its multiplicity. -/
def categoryKeys (store : Store) (oid : Nat) : List (Option String) :=
  (tenantDevices store oid).map (categoryName? store)

/-- Multiplicity of a group key among the stored values (the `COUNT('id')`
of an SQL group). -/
def keyCount {κ : Type} [DecidableEq κ] (a : κ) (l : List κ) : Nat :=
  List.count a l

/-- dashboard/views.py `dispositivos_por_categoria`: group the tenant's
devices by stored `category__name`, then build the Python dict keyed by
`catLabel` (later groups overwrite earlier ones on key collision). -/
def device_counts_by_category (store : Store) (oid : Nat) : List (String × Nat) :=
  dictOfPairs ((categoryKeys store oid).dedup.map
    (fun k => (catLabel k, keyCount k (categoryKeys store oid))))

/-- The joined column `device__organization_id` of an alert or measurement
row: the owning device's organization reference. -/
def rowOrgId (store : Store) (deviceId : Nat) : Option Nat :=
  match store.devices.find? (fun d => d.id == deviceId) with
  | some d => d.organizationId
  | none => none

/-- `Alert.objects.filter(device__organization_id=organization_id)`. -/
def tenantAlerts (store : Store) (oid : Nat) : List Alert :=
  store.alerts.filter (fun a => rowOrgId store a.deviceId == some oid)

/-- Python `str.upper()` on the stored label, character by character
(structural recursion so that concrete dictionaries evaluate). -/
def strUpper (s : String) : String :=
  String.mk (s.data.map Char.toUpper)

/-- The dict key `(r.get('alert_type') or '').upper()`. -/
def alertKey (t : String) : String :=
  strUpper (pyOrS t "")

/-- The multiset of stored `alert_type` values over the tenant's alerts. -/
def alertTypeValues (store : Store) (oid : Nat) : List String :=
  (tenantAlerts store oid).map (fun a => a.alert_type)

/-- dashboard/views.py `severidad_counts`: group the tenant's alerts by the
stored `alert_type`, then assign each group's count into a Python dict under
the uppercased key (later groups overwrite earlier ones on key collision). -/
def alert_counts_by_severity (store : Store) (oid : Nat) : List (String × Nat) :=
  dictOfPairs ((alertTypeValues store oid).dedup.map
    (fun r => (alertKey r, keyCount r (alertTypeValues store oid))))

/-- `severidad_counts.get('CRITICAL') or severidad_counts.get('GRAVE') or 0`. -/
def conteo_grave (store : Store) (oid : Nat) : Nat :=
  pyOrNat (dictGet? (alert_counts_by_severity store oid) "CRITICAL")
    (pyOrNat (dictGet? (alert_counts_by_severity store oid) "GRAVE") 0)

/-- `severidad_counts.get('HIGH') or severidad_counts.get('ALTO') or 0`. -/
def conteo_alto (store : Store) (oid : Nat) : Nat :=
  pyOrNat (dictGet? (alert_counts_by_severity store oid) "HIGH")
    (pyOrNat (dictGet? (alert_counts_by_severity store oid) "ALTO") 0)

/-- `severidad_counts.get('MEDIUM') or severidad_counts.get('MEDIANO') or 0`. -/
def conteo_mediano (store : Store) (oid : Nat) : Nat :=
  pyOrNat (dictGet? (alert_counts_by_severity store oid) "MEDIUM")
    (pyOrNat (dictGet? (alert_counts_by_severity store oid) "MEDIANO") 0)

/-- `Paginator.num_pages` with the default `orphans=0`,
`allow_empty_first_page=True`: `ceil(max(1, count) / per_page)`. -/
def num_pages (count per : Nat) : Nat :=
  (max 1 count + per - 1) / per

/-- The exceptions `Paginator.page` can raise. -/
inductive PageError where
  | notAnInteger
  | emptyPage
  deriving DecidableEq, Repr

/-- The 1-indexed page `page` of `l`: the slice
`object_list[(page-1)*per : (page-1)*per + per]`. -/
def pageItems {α : Type} (l : List α) (per page : Nat) : List α :=
  (l.drop ((page - 1) * per)).take per

/-- `Paginator.page(number)` after `validate_number`: a `none` input stands
for a value `int()` rejects (`PageNotAnInteger`); a number below 1 or beyond
`num_pages` raises `EmptyPage`, except that page 1 of an empty list is
allowed (`allow_empty_first_page`). -/
def paginator_page {α : Type} (l : List α) (per : Nat) (number : Option Int) :
    Except PageError (List α) :=
  match number with
  | none => .error .notAnInteger
  | some n =>
    if n < 1 then .error .emptyPage
    else if (num_pages l.length per : Int) < n then
      if n = 1 then .ok (pageItems l per 1) else .error .emptyPage
    else .ok (pageItems l per n.toNat)

/-- The views' pagination pattern: `paginator.page(page)` with
`except (PageNotAnInteger, EmptyPage): paginator.page(1)`.  The fallback
`paginator.page(1)` cannot itself raise (page 1 is always allowed), so it is
written directly as the first slice. -/
def view_page {α : Type} (l : List α) (per : Nat) (number : Option Int) : List α :=
  match paginator_page l per number with
  | .ok items => items
  | .error _ => pageItems l per 1

/-- The normalized `alert_type` written back onto each listed alert:
`getattr(a, 'alert_type', None) or getattr(a, 'severity', None) or ''`. -/
def normAlertType (a : Alert) : String :=
  pyOrS a.alert_type (pyOrS (a.severity.getD "") "")

/-- `setattr(a, 'alert_type', at)` on a listed alert. -/
def normalizeAlert (a : Alert) : Alert :=
  { a with alert_type := normAlertType a }

/-- The alerts queryset of dashboard/views.py `alerts`: tenant-scoped,
`order_by('-created_at')`. -/
def alerts_qs (store : Store) (oid : Nat) : List Alert :=
  sortDescBy (fun a => a.created_at.code) (tenantAlerts store oid)

/-- dashboard/views.py `alerts`: the rendered page of alerts (20 per page,
with the page-1 fallback), each normalized for the template. -/
def alerts_page (store : Store) (oid : Nat) (number : Option Int) : List Alert :=
  (view_page (alerts_qs store oid) 20 number).map normalizeAlert

/-- `Measurement.objects.filter(device__organization_id=organization_id)`. -/
def tenantMeasurements (store : Store) (oid : Nat) : List MeasurementRow :=
  store.measurements.filter (fun m => rowOrgId store m.deviceId == some oid)

/-- The measurements queryset: tenant-scoped, `order_by('-timestamp')`. -/
def measurements_qs (store : Store) (oid : Nat) : List MeasurementRow :=
  sortDescBy (fun m => m.timestamp.code) (tenantMeasurements store oid)

/-- The probed capture time of a row:
`getattr(m,'fecha_hora',None) or getattr(m,'timestamp',None) or
getattr(m,'measured_at',None) or getattr(m,'created_at',None)`
(datetimes are always truthy in Python). -/
def rowFecha (m : MeasurementRow) : Option DateTime :=
  pyOrO m.fecha_hora (pyOrO (some m.timestamp) (pyOrO m.measured_at (some m.created_at)))

/-- `fecha.strftime("%Y-%m-%d %H:%M:%S") if fecha else ''`. -/
def fechaStr (m : MeasurementRow) : String :=
  match rowFecha m with
  | some t => t.strftime
  | none => ""

/-- The probed numeric reading of a row: `getattr(m,'valor',None)`, falling
back to `value`, then to `reading`, each guarded by `is None` (so a stored
`0` is kept). -/
def rowValor (m : MeasurementRow) : Option Int :=
  match m.valor with
  | some v => some v
  | none =>
    match m.value with
    | some v => some v
    | none => m.reading

/-- `getattr(m.device, 'name', ...)`: the owning device's display name. -/
def rowDeviceName (store : Store) (deviceId : Nat) : String :=
  match store.devices.find? (fun d => d.id == deviceId) with
  | some d => d.name
  | none => ""

/-- `getattr(m.device, 'id', None)`. -/
def rowDeviceId (store : Store) (deviceId : Nat) : Option Nat :=
  match store.devices.find? (fun d => d.id == deviceId) with
  | some d => some d.id
  | none => none

/-- Flattened measurement entry built by the dashboard view; `valor` stays
the Python `None` (`none`) when every alias is absent. -/
structure MeasurementEntry where
  fecha_hora : String
  valor : Option Int
  dispositivo : String
  device_id : Option Nat
  deriving DecidableEq, Repr

/-- The `valor` cell of the measurements list view: a number, or the literal
empty-string fallback. -/
inductive ValorCell where
  | num (v : Int)
  | emptyStr
  deriving DecidableEq, Repr

/-- Flattened measurement entry built by the measurements list view, where a
missing reading is replaced by the empty string. -/
structure MeasurementEntryL where
  fecha_hora : String
  valor : ValorCell
  dispositivo : String
  device_id : Option Nat
  deriving DecidableEq, Repr

/-- The dict built per row in dashboard/views.py `dashboard`. -/
def flattenDash (store : Store) (m : MeasurementRow) : MeasurementEntry :=
  { fecha_hora := fechaStr m
    valor := rowValor m
    dispositivo := rowDeviceName store m.deviceId
    device_id := rowDeviceId store m.deviceId }

/-- The dict built per row in dashboard/views.py `measurements`, including the
`if valor is None: valor = ''` fallback. -/
def flattenList (store : Store) (m : MeasurementRow) : MeasurementEntryL :=
  { fecha_hora := fechaStr m
    valor :=
      match rowValor m with
      | some v => .num v
      | none => .emptyStr
    dispositivo := rowDeviceName store m.deviceId
    device_id := rowDeviceId store m.deviceId }

/-- dashboard/views.py `dashboard`, `ultimas_mediciones`: the first 10 rows of
the newest-first tenant queryset, flattened. -/
def ultimas_mediciones_dash (store : Store) (oid : Nat) : List MeasurementEntry :=
  ((measurements_qs store oid).take 10).map (flattenDash store)

/-- dashboard/views.py `measurements`, `ultimas_mediciones`: the first 50 rows
of the newest-first tenant queryset, flattened with the empty-string
fallback. -/
def ultimas_mediciones_list (store : Store) (oid : Nat) : List MeasurementEntryL :=
  ((measurements_qs store oid).take 50).map (flattenList store)

/-- dashboard/views.py `measurements`: the rendered page of measurement rows
(50 per page, with the page-1 fallback). -/
def measurements_page (store : Store) (oid : Nat) (number : Option Int) :
    List MeasurementRow :=
  view_page (measurements_qs store oid) 50 number

/-- The context rendered by dashboard/views.py `devices_list`. -/
structure DevicesListResult where
  dispositivos : List Device
  categorias : List (Option String)
  categoria_seleccionada : String
  deriving DecidableEq, Repr

/-- dashboard/views.py `devices_list`: read `category` from the query string
(missing key reads as `''`), list the distinct `category__name` values of the
tenant's devices, and apply `devices.filter(category__name=category)` only
when `category` is truthy, i.e. non-empty. -/
def devices_list (store : Store) (oid : Nat) (category : String) : DevicesListResult :=
  let devs := tenantDevices store oid
  { dispositivos :=
      if category ≠ "" then devs.filter (fun d => categoryName? store d == some category)
      else devs
    categorias := (devs.map (categoryName? store)).dedup
    categoria_seleccionada := category }

/-- Rendered result of dashboard/views.py `device_detail` (past the session
guard): an `Http404` — raised identically by `get_object_or_404` and by the
explicit cross-tenant check — or the detail page. -/
inductive DetailResult where
  | http404
  | page (dispositivo : Device) (mediciones : List MeasurementRow) (alertas : List Alert)
  deriving DecidableEq, Repr

/-- dashboard/views.py `device_detail`: `get_object_or_404(Device, pk=id)`,
then `raise Http404` unless `dispositivo.organization_id == organization_id`,
then the device's measurements and alerts newest-first. -/
def device_detail (store : Store) (oid : Nat) (deviceId : Nat) : DetailResult :=
  match store.devices.find? (fun d => d.id == deviceId) with
  | none => .http404
  | some dispositivo =>
    if dispositivo.organizationId ≠ some oid then .http404
    else
      .page dispositivo
        (sortDescBy (fun m => m.timestamp.code)
          (store.measurements.filter (fun m => m.deviceId == dispositivo.id)))
        (sortDescBy (fun a => a.created_at.code)
          (store.alerts.filter (fun a => a.deviceId == dispositivo.id)))

/-- Reference-spec rendering of a convenience roll-up, following the spec's
words: the count under the English label when that bucket is present,
otherwise the count under the Spanish label, otherwise 0.  Used only to be
compared against the code's `pyOrNat` chain. -/
def rollupSpec (m : List (String × Nat)) (en es : String) : Nat :=
  match dictGet? m en with
  | some c => c
  | none =>
    match dictGet? m es with
    | some c => c
    | none => 0

/-- Sample timestamps (strictly increasing). -/
def exT1 : DateTime := ⟨2024, 1, 1, 8, 30, 0⟩

def exT2 : DateTime := ⟨2024, 1, 2, 9, 15, 30⟩

def exT3 : DateTime := ⟨2024, 1, 3, 23, 5, 59⟩

/-- Sample tenants. -/
def exOrg1 : Organization :=
  { id := 1, name := "Acme", email := "acme@example.com", password := make_password "hunter2" }

def exOrg2 : Organization :=
  { id := 2, name := "Beta", email := "beta@example.com", password := make_password "pw2" }

/-- Sample devices: two owned by tenant 1 (one in the empty-named category),
one owned by tenant 2. -/
def exDev1 : Device :=
  { id := 1, name := "Sensor A", categoryId := 1, zoneId := 1, max_consumption := 100,
    organizationId := some 1 }

def exDev2 : Device :=
  { id := 2, name := "Sensor B", categoryId := 1, zoneId := 1, max_consumption := 100,
    organizationId := some 2 }

def exDev3 : Device :=
  { id := 3, name := "Sensor C", categoryId := 2, zoneId := 1, max_consumption := 50,
    organizationId := some 1 }

/-- Sample measurement row carrying only the legacy `reading` alias. -/
def exRowLegacy : MeasurementRow :=
  { id := 2, deviceId := 3, timestamp := exT2, created_at := exT2, reading := some 5 }

/-- Sample store exercising both tenants, the sentinel category and a legacy
measurement row. -/
def exStore : Store :=
  { organizations := [exOrg1, exOrg2]
    categories := [⟨1, "HVAC", "ACTIVE", none⟩, ⟨2, "", "ACTIVE", none⟩]
    zones := [⟨1, "Planta", "ACTIVE", none⟩]
    devices := [exDev1, exDev2, exDev3]
    measurements :=
      [{ id := 1, deviceId := 1, timestamp := exT3, created_at := exT3, value := some 7 },
        exRowLegacy,
        { id := 3, deviceId := 1, timestamp := exT1, created_at := exT1, value := some 9 },
        { id := 4, deviceId := 2, timestamp := exT2, created_at := exT2, value := some 1 }]
    alerts :=
      [{ id := 1, deviceId := 1, alert_type := "HIGH_CONSUMPTION", message := "hc",
          created_at := exT3 },
        { id := 2, deviceId := 3, alert_type := "MAINTENANCE", message := "mt",
          created_at := exT2 },
        { id := 3, deviceId := 2, alert_type := "HIGH_CONSUMPTION", message := "hc2",
          created_at := exT1 }] }

/-- An empty store: no organizations at all. -/
def emptyStore : Store :=
  { organizations := [], categories := [], zones := [], devices := [], measurements := [],
    alerts := [] }

/-- A session carrying a stale organization id (no such record) while still
logged in. -/
def staleSession : Session :=
  { organization_id := some 5, organization_name := some "Ghost", is_logged_in := some true }

/-- Store for the C3 counterexample: tenant 1 owns exactly one device, and
that device is soft-deleted. -/
def softDeletedStore : Store :=
  { organizations := [exOrg1]
    categories := [⟨1, "HVAC", "ACTIVE", none⟩]
    zones := [⟨1, "Planta", "ACTIVE", none⟩]
    devices :=
      [{ id := 1, name := "Old sensor", categoryId := 1, zoneId := 1, max_consumption := 10,
          organizationId := some 1, status := "INACTIVE", deleted_at := some exT1 }]
    measurements := []
    alerts := [] }

/-- Store for the C4 counterexample: tenant 1 has two alerts whose stored
types differ only in casing. -/
def mixedCaseAlertStore : Store :=
  { organizations := [exOrg1]
    categories := [⟨1, "HVAC", "ACTIVE", none⟩]
    zones := [⟨1, "Planta", "ACTIVE", none⟩]
    devices := [exDev1]
    measurements := []
    alerts :=
      [{ id := 1, deviceId := 1, alert_type := "high", message := "m1", created_at := exT1 },
        { id := 2, deviceId := 1, alert_type := "HIGH", message := "m2", created_at := exT2 }] }

/-- Registration submission with an empty password and a non-empty,
different confirmation. -/
def mismatchEmptyPasswordForm : RegForm :=
  { name := "Acme", email := "acme@example.com", password := "", confirm_password := "x" }

/-- A session that still holds a non-login key. -/
def sessionWithExtra : Session :=
  { organization_id := some 1, organization_name := some "Acme", is_logged_in := some true,
    extra := [("theme", "dark")] }

/-- Sorting with `sortDescBy` yields a list sorted descending by the key. -/
theorem sortDescBy_sorted {α : Type} (key : α → Nat) (l : List α) :
    (sortDescBy key l).Sorted (fun a b => key b ≤ key a) := by
  haveI : IsTotal α (fun a b => key b ≤ key a) :=
    ⟨fun a b => Nat.le_total (key b) (key a)⟩
  haveI : IsTrans α (fun a b => key b ≤ key a) :=
    ⟨fun _ _ _ hab hbc => Nat.le_trans hbc hab⟩
  exact List.sorted_insertionSort _ l

/-- Sorting with `sortDescBy` permutes the input. -/
theorem sortDescBy_perm {α : Type} (key : α → Nat) (l : List α) :
    (sortDescBy key l).Perm l :=
  List.perm_insertionSort _ l

/-- Inserting an absent key appends the pair. -/
theorem dictSet_not_mem (m : List (String × Nat)) (k : String) (v : Nat)
    (h : m.any (fun p => p.1 == k) = false) : dictSet m k v = m ++ [(k, v)] := by
  simp [dictSet, h]

/-- Folding `dictSet` over pairs with pairwise-distinct keys, none of which
occurs in the accumulator, just appends them. -/
theorem foldl_dictSet_append (ps : List (String × Nat)) : ∀ m : List (String × Nat),
    (ps.map Prod.fst).Nodup → (∀ p ∈ ps, m.any (fun q => q.1 == p.1) = false) →
    ps.foldl (fun m p => dictSet m p.1 p.2) m = m ++ ps := by
  induction ps with
  | nil => intro m _ _; simp
  | cons p ps ih =>
    intro m hnd hmem
    have hp : m.any (fun q => q.1 == p.1) = false := hmem p (List.mem_cons_self p ps)
    have hstep : (∀ q ∈ ps, (m ++ [(p.1, p.2)]).any (fun r => r.1 == q.1) = false) := by
      intro q hq
      rw [List.any_append]
      have h1 : m.any (fun r => r.1 == q.1) = false := hmem q (List.mem_cons_of_mem p hq)
      have h2 : p.1 ≠ q.1 := by
        intro heq
        exact (List.nodup_cons.mp (by simpa using hnd)).1 (heq ▸ List.mem_map_of_mem Prod.fst hq)
      simp [h1, h2]
    rw [List.foldl_cons, dictSet_not_mem m p.1 p.2 hp,
      ih (m ++ [(p.1, p.2)]) (by simpa using (List.nodup_cons.mp (by simpa using hnd)).2) hstep]
    simp

/-- A Python dict built from pairs with pairwise-distinct keys is just the
association list of those pairs. -/
theorem dictOfPairs_of_nodupKeys (ps : List (String × Nat))
    (h : (ps.map Prod.fst).Nodup) : dictOfPairs ps = ps := by
  unfold dictOfPairs
  rw [foldl_dictSet_append ps [] h (by intro p _; rfl)]
  rfl

/-- Every entry of `dictSet m k v` is an entry of `m` or the inserted pair. -/
theorem dictSet_mem (m : List (String × Nat)) (k : String) (v : Nat)
    (x : String × Nat) (hx : x ∈ dictSet m k v) : x ∈ m ∨ x = (k, v) := by
  unfold dictSet at hx
  by_cases hc : m.any (fun p => p.1 == k) = true
  · rw [if_pos hc] at hx
    obtain ⟨p, hp, hpx⟩ := List.mem_map.mp hx
    by_cases hpk : p.1 == k
    · right; rw [if_pos hpk] at hpx; exact hpx.symm
    · left; rw [if_neg hpk] at hpx; exact hpx ▸ hp
  · rw [if_neg hc] at hx
    rcases List.mem_append.mp hx with h | h
    · exact Or.inl h
    · exact Or.inr (List.mem_singleton.mp h)

/-- Entries of a `dictSet` fold come from the accumulator or from the pair
list. -/
theorem foldl_dictSet_mem (ps : List (String × Nat)) :
    ∀ (m : List (String × Nat)) (x : String × Nat),
      x ∈ ps.foldl (fun m p => dictSet m p.1 p.2) m → x ∈ m ∨ x ∈ ps := by
  induction ps with
  | nil => intro m x hm; exact Or.inl (by simpa using hm)
  | cons p ps ih =>
    intro m x hm
    rcases ih (dictSet m p.1 p.2) x (by simpa using hm) with h | h
    · rcases dictSet_mem m p.1 p.2 x h with h | h
      · exact Or.inl h
      · exact Or.inr (h ▸ List.mem_cons_self p ps)
    · exact Or.inr (List.mem_cons_of_mem p h)

/-- Every entry of a Python dict built from `ps` is one of the pairs of `ps`
(overwriting only discards pairs, it never invents entries). -/
theorem dictOfPairs_mem (ps : List (String × Nat)) (x : String × Nat)
    (hx : x ∈ dictOfPairs ps) : x ∈ ps :=
  (foldl_dictSet_mem ps [] x hx).resolve_left (by simp)

/-- When the label function is injective on the values present, the grouped
pairs have pairwise-distinct dict keys. -/
theorem group_nodupKeys {κ : Type} [DecidableEq κ] (label : κ → String) (keys : List κ)
    (H : ∀ k1 ∈ keys, ∀ k2 ∈ keys, label k1 = label k2 → k1 = k2) :
    ((keys.dedup.map fun k => (label k, keyCount k keys)).map Prod.fst).Nodup := by
  rw [List.map_map]
  have hcomp : (Prod.fst ∘ fun k => (label k, keyCount k keys)) = label := rfl
  rw [hcomp]
  exact List.Nodup.map_on
    (fun x hx y hy hxy => H x (List.mem_dedup.mp hx) y (List.mem_dedup.mp hy) hxy)
    (List.nodup_dedup keys)

/-- With collision-free labels, the dict values of a grouped count sum to the
number of grouped elements. -/
theorem group_sum {κ : Type} [DecidableEq κ] (label : κ → String) (keys : List κ)
    (H : ∀ k1 ∈ keys, ∀ k2 ∈ keys, label k1 = label k2 → k1 = k2) :
    ((dictOfPairs (keys.dedup.map fun k => (label k, keyCount k keys))).map Prod.snd).sum
      = keys.length := by
  rw [dictOfPairs_of_nodupKeys _ (group_nodupKeys label keys H), List.map_map]
  have hcomp : (Prod.snd ∘ fun k => (label k, keyCount k keys)) = fun k => keys.count k := rfl
  rw [hcomp]
  exact List.sum_map_count_dedup_eq_length keys

/-- With collision-free labels, looking a label up in the grouped dict counts
exactly the elements carrying that label (0 when absent). -/
theorem group_get {κ : Type} [DecidableEq κ] (label : κ → String) (keys : List κ)
    (H : ∀ k1 ∈ keys, ∀ k2 ∈ keys, label k1 = label k2 → k1 = k2) (s : String) :
    (dictGet? (dictOfPairs (keys.dedup.map fun k => (label k, keyCount k keys))) s).getD 0
      = keys.countP (fun k => label k == s) := by
  rw [dictOfPairs_of_nodupKeys _ (group_nodupKeys label keys H)]
  unfold dictGet?
  rw [List.find?_map]
  have hpred : ((fun p : String × Nat => p.1 == s) ∘ fun k => (label k, keyCount k keys))
      = fun k => label k == s := rfl
  rw [hpred]
  cases hfind : keys.dedup.find? (fun k => label k == s) with
  | none =>
    have hz : keys.countP (fun k => label k == s) = 0 :=
      List.countP_eq_zero.mpr
        (fun a ha => List.find?_eq_none.mp hfind a (List.mem_dedup.mpr ha))
    simp [hz]
  | some k0 =>
    have hk0keys : k0 ∈ keys := List.mem_dedup.mp (List.mem_of_find?_eq_some hfind)
    have hk0lab : label k0 = s := by simpa using List.find?_some hfind
    have hcong : ∀ a ∈ keys, (label a == s) = (a == k0) := by
      intro a ha
      by_cases h : label a = s
      · have hak : a = k0 := H a ha k0 hk0keys (h.trans hk0lab.symm)
        simp [h, hak, hk0lab]
      · have hak : a ≠ k0 := fun he => h (he ▸ hk0lab)
        simp [h, hak]
    rw [List.countP_eq_length_filter, List.filter_congr hcong,
      ← List.countP_eq_length_filter]
    simp [keyCount, List.count]

/-- Every value stored in a grouped-count dict is positive, with or without
label collisions (surviving entries always are group counts). -/
theorem group_get_pos {κ : Type} [DecidableEq κ] (label : κ → String) (keys : List κ)
    (s : String) (c : Nat)
    (h : dictGet? (dictOfPairs (keys.dedup.map fun k => (label k, keyCount k keys))) s = some c) :
    0 < c := by
  unfold dictGet? at h
  obtain ⟨p, hp, hpc⟩ := Option.map_eq_some'.mp h
  have hpmem : p ∈ keys.dedup.map fun k => (label k, keyCount k keys) :=
    dictOfPairs_mem _ p (List.mem_of_find?_eq_some hp)
  obtain ⟨k, hk, hkp⟩ := List.mem_map.mp hpmem
  have hkkeys : k ∈ keys := List.mem_dedup.mp hk
  have : p.2 = keyCount k keys := by rw [← hkp]
  rw [← hpc, this]
  exact List.count_pos_iff.mpr hkkeys

/-- A positive page count: with at least one item per page there is always a
page 1. -/
theorem one_le_num_pages (count per : Nat) (h : 1 ≤ per) : 1 ≤ num_pages count per := by
  unfold num_pages
  rw [Nat.le_div_iff_mul_le h]
  have hm : 1 ≤ max 1 count := Nat.le_max_left 1 count
  omega

/-- A missing or non-integer page value falls back to page 1. -/
theorem view_page_notAnInteger {α : Type} (l : List α) (per : Nat) :
    view_page l per none = pageItems l per 1 := rfl

/-- A page value below 1 falls back to page 1. -/
theorem view_page_lt_one {α : Type} (l : List α) (per : Nat) (n : Int) (h : n < 1) :
    view_page l per (some n) = pageItems l per 1 := by
  simp [view_page, paginator_page, h]

/-- A page value beyond the last page falls back to page 1. -/
theorem view_page_beyond {α : Type} (l : List α) (per : Nat) (n : Int) (hper : 1 ≤ per)
    (h : (num_pages l.length per : Int) < n) :
    view_page l per (some n) = pageItems l per 1 := by
  have h1 : (1 : Int) ≤ (num_pages l.length per : Int) := by
    exact_mod_cast one_le_num_pages l.length per hper
  have hn1 : ¬ n < 1 := by omega
  have hne : ¬ n = 1 := by omega
  simp [view_page, paginator_page, hn1, h, hne]

/-- An in-range page value yields exactly that 1-indexed page. -/
theorem view_page_in_range {α : Type} (l : List α) (per : Nat) (n : Int)
    (h1 : 1 ≤ n) (h2 : n ≤ (num_pages l.length per : Int)) :
    view_page l per (some n) = pageItems l per n.toNat := by
  have hn1 : ¬ n < 1 := by omega
  have hn2 : ¬ (num_pages l.length per : Int) < n := by omega
  simp [view_page, paginator_page, hn1, hn2]

/-- The stored hash never equals the raw password (it carries the algorithm
tag). -/
theorem make_password_ne (p : String) : make_password p ≠ p := by
  intro h
  have hlen := congrArg String.length h
  rw [make_password, String.length_append] at hlen
  have htag : ("pbkdf2_sha256$" : String).length = 14 := rfl
  omega

/-- The timestamp probing chain always resolves to `fecha_hora` when present
and to the mandatory `timestamp` column otherwise; the `measured_at` and
`created_at` fallbacks are never reached. -/
theorem rowFecha_eq (m : MeasurementRow) :
    rowFecha m = some (m.fecha_hora.getD m.timestamp) := by
  obtain ⟨i, d, ts, ca, fh, ma, va, vl, rd, st, da⟩ := m
  cases fh <;> rfl

/-- The reading probing chain is the first-present alias among
`valor`, `value`, `reading`. -/
theorem rowValor_eq (m : MeasurementRow) :
    rowValor m = m.valor.or (m.value.or m.reading) := by
  obtain ⟨i, d, ts, ca, fh, ma, va, vl, rd, st, da⟩ := m
  cases va <;> cases vl <;> rfl

/-- A row passing the tenant join has an owning device in the store with that
organization. -/
theorem rowOrgId_device (store : Store) (deviceId oid : Nat)
    (h : rowOrgId store deviceId = some oid) :
    ∃ d, store.devices.find? (fun d => d.id == deviceId) = some d ∧
      d ∈ store.devices ∧ d.id = deviceId ∧ d.organizationId = some oid := by
  unfold rowOrgId at h
  cases hfind : store.devices.find? (fun d => d.id == deviceId) with
  | none => rw [hfind] at h; exact absurd h (by simp)
  | some d =>
    rw [hfind] at h
    exact ⟨d, rfl, List.mem_of_find?_eq_some hfind, by simpa using List.find?_some hfind, h⟩

/-- C1: for a resolved tenant, `device_detail` yields the same `Http404`
outcome both when no device with the requested id exists and when one exists
but its organization reference differs from the tenant, so a caller cannot
distinguish a nonexistent device from another tenant's device. -/
theorem c1_device_detail_notFound (store : Store) (oid deviceId : Nat)
    (h : store.devices.find? (fun d => d.id == deviceId) = none ∨
      ∃ d, store.devices.find? (fun d => d.id == deviceId) = some d ∧
        d.organizationId ≠ some oid) :
    device_detail store oid deviceId = .http404 := by
  unfold device_detail
  rcases h with h | ⟨d, hd, hne⟩
  · rw [h]
  · rw [hd]
    simp [hne]

/-- C1 witness: tenant 1 requesting device 2 (owned by organization 2) gets
the 404 outcome. -/
theorem c1_witness : device_detail exStore 1 2 = .http404 :=
  c1_device_detail_notFound exStore 1 2 (Or.inr ⟨exDev2, by decide, by decide⟩)

/-- C2 counterexample: with a logged-in session whose `organization_id` (5)
no longer resolves to any organization and with no authenticated user, a
protected view does not signal the invalid-session redirect as the claim
requires — it proceeds, executing its body with the stale session id 5. -/
theorem c2_counterexample :
    emptyStore.organizations.find? (fun o => o.id == 5) = none ∧
    runProtected emptyStore staleSession none (fun oid => oid) ≠ .invalidSession ∧
    runProtected emptyStore staleSession none (fun oid => oid) = .ok 5 := by decide

/-- C2 (amended): for a logged-in session, a protected view signals the
invalid-session redirect only when `_get_organization` resolves nothing and
the session holds no truthy `organization_id`; when resolution fails but the
session still carries a stale nonzero id the view proceeds with that raw
session value, and when an organization resolves the view proceeds with its
id. -/
theorem c2_tenant_resolution {α : Type} (store : Store) (sess : Session)
    (user : Option AuthUser) (body : Nat → α)
    (hlog : sess.is_logged_in.getD false = true) :
    (get_organization store sess user = none → truthyId sess.organization_id = false →
      runProtected store sess user body = .invalidSession) ∧
    (∀ oid : Nat, get_organization store sess user = none →
      sess.organization_id = some oid → oid ≠ 0 →
      runProtected store sess user body = .ok (body oid)) ∧
    (∀ org : Organization, get_organization store sess user = some org → org.id ≠ 0 →
      runProtected store sess user body = .ok (body org.id)) := by
  refine ⟨fun hget htr => ?_, fun oid hget hs hoid => ?_, fun org hget horg => ?_⟩
  · have hv : viewOrgId store sess user = none := by
      unfold viewOrgId
      rw [hget]
      cases hs : sess.organization_id with
      | none => rfl
      | some n =>
        have hn : n = 0 := by
          rw [hs] at htr
          simpa [truthyId] using htr
        simp [hn]
    simp [runProtected, hlog, hv]
  · have hv : viewOrgId store sess user = some oid := by
      unfold viewOrgId
      rw [hget, hs]
      simp [hoid]
    simp [runProtected, hlog, hv]
  · have hv : viewOrgId store sess user = some org.id := by
      unfold viewOrgId
      rw [hget]
      simp [horg]
    simp [runProtected, hlog, hv]

/-- C2 witness: a session with no organization id at all is redirected as an
invalid session, while a session whose id 1 resolves proceeds as tenant 1. -/
theorem c2_witness :
    runProtected emptyStore { is_logged_in := some true } none (fun oid => oid) =
      .invalidSession ∧
    runProtected exStore { organization_id := some 1, is_logged_in := some true } none
      (fun oid => oid) = .ok 1 := by
  constructor
  · exact (c2_tenant_resolution emptyStore { is_logged_in := some true } none
      (fun oid => oid) (by decide)).1 (by decide) (by decide)
  · exact (c2_tenant_resolution exStore
      { organization_id := some 1, is_logged_in := some true } none
      (fun oid => oid) (by decide)).2.2 exOrg1 (by decide) (by decide)

/-- C6: a login attempt matching a stored organization by email but failing
password verification re-renders with the literal message "Contraseña
incorrecta" and returns the session unchanged (none of the three login keys
is written); if that session was not logged in, every protected view still
rejects it as unauthorized afterwards. -/
theorem c6_wrong_password (store : Store) (sess : Session) (email pwd : String)
    (org : Organization)
    (hfind : store.organizations.find? (fun o => o.email == email) = some org)
    (hbad : check_password pwd org.password = false) :
    login_view store sess email pwd = (.renderError "Contraseña incorrecta", sess) ∧
    (sess.is_logged_in.getD false = false →
      ∀ user : Option AuthUser,
        runProtected store sess user (fun oid => oid) = .unauthorized) := by
  constructor
  · unfold login_view
    rw [hfind]
    simp [hbad]
  · intro hlog user
    simp [runProtected, hlog]

/-- C6 witness: the wrong password against the stored hash of organization 1
is rejected with the literal message, the empty session survives unchanged,
and a protected request on it is still unauthorized. -/
theorem c6_witness :
    login_view exStore {} "acme@example.com" "wrongpw" =
      (.renderError "Contraseña incorrecta", {}) ∧
    runProtected exStore {} none (fun oid => oid) = .unauthorized := by
  obtain ⟨h1, h2⟩ :=
    c6_wrong_password exStore {} "acme@example.com" "wrongpw" exOrg1 (by decide) (by decide)
  exact ⟨h1, h2 (by decide) none⟩

/-- C9 counterexample: the login-app logout deletes only the three login
keys; a session carrying another session-scoped key keeps it, so logout does
not clear "any other session-scoped keys" as the claim states. -/
theorem c9_counterexample :
    (logout_view_login sessionWithExtra).organization_id = none ∧
    (logout_view_login sessionWithExtra).is_logged_in = none ∧
    (logout_view_login sessionWithExtra).extra = [("theme", "dark")] ∧
    (logout_view_login sessionWithExtra).extra ≠ [] := by decide

/-- C9 (amended): both logout implementations are total (no error on absent
keys) and clear the three login keys; the dashboard variant flushes every
remaining session key, while the login-app variant leaves other
session-scoped keys untouched. -/
theorem c9_logout (sess : Session) :
    (logout_view_login sess).organization_id = none ∧
    (logout_view_login sess).organization_name = none ∧
    (logout_view_login sess).is_logged_in = none ∧
    (logout_view_login sess).extra = sess.extra ∧
    logout_view_dashboard sess =
      { organization_id := none, organization_name := none, is_logged_in := none,
        extra := [] } :=
  ⟨rfl, rfl, rfl, rfl, rfl⟩

/-- C10: in `devices_list` an empty category filter is treated as no filter
at all — the full tenant device set is returned, not only the devices whose
category label is empty — while a non-empty filter restricts the result to
exact label matches. -/
theorem c10_category_filter (store : Store) (oid : Nat) :
    (devices_list store oid "").dispositivos = tenantDevices store oid ∧
    ∀ c : String, c ≠ "" →
      (devices_list store oid c).dispositivos =
        (tenantDevices store oid).filter (fun d => categoryName? store d == some c) := by
  constructor
  · simp [devices_list]
  · intro c hc
    simp [devices_list, hc]

/-- C10 witness: filtering tenant 1 by the label HVAC restricts to the exact
matches. -/
theorem c10_witness :
    (devices_list exStore 1 "HVAC").dispositivos =
      (tenantDevices exStore 1).filter (fun d => categoryName? exStore d == some "HVAC") :=
  (c10_category_filter exStore 1).2 "HVAC" (by decide)

/-- C3 counterexample: tenant 1's only device is soft-deleted (`deleted_at`
set), yet the per-category counts still include it — the dict values sum to
1 while the number of non-deleted devices owned by tenant 1 is 0, so the
counts do not sum to the non-deleted total as the claim states. -/
theorem c3_counterexample :
    ((device_counts_by_category softDeletedStore 1).map Prod.snd).sum = 1 ∧
    (softDeletedStore.devices.filter
      (fun d => d.organizationId == some 1 && d.deleted_at == none)).length = 0 ∧
    ¬ ((device_counts_by_category softDeletedStore 1).map Prod.snd).sum =
      (softDeletedStore.devices.filter
        (fun d => d.organizationId == some 1 && d.deleted_at == none)).length := by
  decide

/-- C3 (amended): provided the tenant's stored category labels stay distinct
after the sentinel substitution (the label map is injective on the values
present), the per-category counts sum to the number of ALL devices owned by
the tenant — soft-deleted ones included, since the code applies no
`deleted_at` filter — and the dict entry of every label counts exactly the
tenant's devices carrying that label: devices of other tenants never
contribute, and devices without a resolvable category name land under the
single sentinel "Sin categoría". -/
theorem c3_category_counts (store : Store) (oid : Nat)
    (H : ∀ k1 ∈ categoryKeys store oid, ∀ k2 ∈ categoryKeys store oid,
      catLabel k1 = catLabel k2 → k1 = k2) :
    ((device_counts_by_category store oid).map Prod.snd).sum =
      (tenantDevices store oid).length ∧
    ∀ s : String, (dictGet? (device_counts_by_category store oid) s).getD 0 =
      (tenantDevices store oid).countP
        (fun d => catLabel (categoryName? store d) == s) := by
  have hdef : device_counts_by_category store oid =
      dictOfPairs ((categoryKeys store oid).dedup.map
        (fun k => (catLabel k, keyCount k (categoryKeys store oid)))) := rfl
  constructor
  · have hlen : (categoryKeys store oid).length = (tenantDevices store oid).length := by
      simp [categoryKeys]
    rw [hdef]
    exact (group_sum catLabel (categoryKeys store oid) H).trans hlen
  · intro s
    have h := group_get catLabel (categoryKeys store oid) H s
    unfold categoryKeys at h
    rw [List.countP_map] at h
    rw [hdef]
    exact h

/-- C3 witness: on the sample store the counts of tenant 1 sum to its device
total and the sentinel bucket counts exactly the empty-labelled device. -/
theorem c3_witness :
    ((device_counts_by_category exStore 1).map Prod.snd).sum =
      (tenantDevices exStore 1).length ∧
    (dictGet? (device_counts_by_category exStore 1) "Sin categoría").getD 0 =
      (tenantDevices exStore 1).countP
        (fun d => catLabel (categoryName? exStore d) == "Sin categoría") := by
  obtain ⟨h1, h2⟩ := c3_category_counts exStore 1 (by decide)
  exact ⟨h1, h2 "Sin categoría"⟩

/-- C4 counterexample: tenant 1 has two alerts whose stored types differ only
in casing ('high' and 'HIGH'); both SQL groups map to the dict key "HIGH"
and the second assignment overwrites the first, so the mapping's total is 1
although the tenant owns 2 alerts — an alert failed to contribute, against
the claim. -/
theorem c4_counterexample :
    (tenantAlerts mixedCaseAlertStore 1).length = 2 ∧
    ((alert_counts_by_severity mixedCaseAlertStore 1).map Prod.snd).sum = 1 ∧
    ¬ ((alert_counts_by_severity mixedCaseAlertStore 1).map Prod.snd).sum =
      (tenantAlerts mixedCaseAlertStore 1).length := by
  decide

/-- Helper for the roll-up cards: since every surviving dict value is a
positive group count, the Python `or` chain coincides with
English-then-Spanish lookup defaulting to 0. -/
theorem pyOr_rollup (store : Store) (oid : Nat) (en es : String) :
    pyOrNat (dictGet? (alert_counts_by_severity store oid) en)
      (pyOrNat (dictGet? (alert_counts_by_severity store oid) es) 0) =
    rollupSpec (alert_counts_by_severity store oid) en es := by
  have hpos : ∀ (s : String) (c : Nat),
      dictGet? (alert_counts_by_severity store oid) s = some c → 0 < c := by
    intro s c hs
    exact group_get_pos alertKey (alertTypeValues store oid) s c hs
  cases hen : dictGet? (alert_counts_by_severity store oid) en with
  | some c =>
    have hc : c ≠ 0 := Nat.pos_iff_ne_zero.mp (hpos en c hen)
    simp [pyOrNat, rollupSpec, hen, hc]
  | none =>
    cases hes : dictGet? (alert_counts_by_severity store oid) es with
    | some c =>
      have hc : c ≠ 0 := Nat.pos_iff_ne_zero.mp (hpos es c hes)
      simp [pyOrNat, rollupSpec, hen, hes, hc]
    | none => simp [pyOrNat, rollupSpec, hen, hes]

/-- C4 (amended): provided distinct stored alert types remain distinct after
uppercasing, the severity mapping is keyed by the uppercased type, its
counts sum to the total number of the tenant's alerts (each contributing
exactly once), the entry of each uppercased key counts exactly the tenant's
alerts with that key, and each convenience roll-up equals the count under
the English label when present, else the Spanish label, else 0. -/
theorem c4_severity_counts (store : Store) (oid : Nat)
    (H : ∀ t1 ∈ alertTypeValues store oid, ∀ t2 ∈ alertTypeValues store oid,
      alertKey t1 = alertKey t2 → t1 = t2) :
    ((alert_counts_by_severity store oid).map Prod.snd).sum =
      (tenantAlerts store oid).length ∧
    (∀ s : String, (dictGet? (alert_counts_by_severity store oid) s).getD 0 =
      (tenantAlerts store oid).countP (fun a => alertKey a.alert_type == s)) ∧
    conteo_grave store oid =
      rollupSpec (alert_counts_by_severity store oid) "CRITICAL" "GRAVE" ∧
    conteo_alto store oid =
      rollupSpec (alert_counts_by_severity store oid) "HIGH" "ALTO" ∧
    conteo_mediano store oid =
      rollupSpec (alert_counts_by_severity store oid) "MEDIUM" "MEDIANO" := by
  refine ⟨?_, ?_, pyOr_rollup store oid "CRITICAL" "GRAVE",
    pyOr_rollup store oid "HIGH" "ALTO", pyOr_rollup store oid "MEDIUM" "MEDIANO"⟩
  · have hlen : (alertTypeValues store oid).length = (tenantAlerts store oid).length := by
      simp [alertTypeValues]
    have hdef : alert_counts_by_severity store oid =
        dictOfPairs ((alertTypeValues store oid).dedup.map
          (fun r => (alertKey r, keyCount r (alertTypeValues store oid)))) := rfl
    rw [hdef]
    exact (group_sum alertKey (alertTypeValues store oid) H).trans hlen
  · intro s
    have hdef : alert_counts_by_severity store oid =
        dictOfPairs ((alertTypeValues store oid).dedup.map
          (fun r => (alertKey r, keyCount r (alertTypeValues store oid)))) := rfl
    have h := group_get alertKey (alertTypeValues store oid) H s
    unfold alertTypeValues at h
    rw [List.countP_map] at h
    rw [hdef]
    exact h

/-- C4 witness: on the sample store the severity totals of tenant 1 match its
alert count and the HIGH roll-up agrees with the label lookup. -/
theorem c4_witness :
    ((alert_counts_by_severity exStore 1).map Prod.snd).sum =
      (tenantAlerts exStore 1).length ∧
    conteo_alto exStore 1 = rollupSpec (alert_counts_by_severity exStore 1) "HIGH" "ALTO" := by
  obtain ⟨h1, _, _, h4, _⟩ := c4_severity_counts exStore 1 (by decide)
  exact ⟨h1, h4⟩

/-- C5: for any tenant, the alert listing (20 per page) and the measurement
listing (50 per page) clamp a missing/non-integer page value, a page below
1, and a page beyond the last page all to page 1, never erroring; an
in-range integer page p yields exactly the p-th 1-indexed slice; and both
underlying querysets are ordered newest-first. -/
theorem c5_pagination (store : Store) (oid : Nat) :
    (alerts_page store oid none = (pageItems (alerts_qs store oid) 20 1).map normalizeAlert) ∧
    (∀ n : Int, n < 1 →
      alerts_page store oid (some n) =
        (pageItems (alerts_qs store oid) 20 1).map normalizeAlert) ∧
    (∀ n : Int, (num_pages (alerts_qs store oid).length 20 : Int) < n →
      alerts_page store oid (some n) =
        (pageItems (alerts_qs store oid) 20 1).map normalizeAlert) ∧
    (∀ n : Int, 1 ≤ n → n ≤ (num_pages (alerts_qs store oid).length 20 : Int) →
      alerts_page store oid (some n) =
        (pageItems (alerts_qs store oid) 20 n.toNat).map normalizeAlert) ∧
    (alerts_qs store oid).Sorted (fun a b => b.created_at.code ≤ a.created_at.code) ∧
    (measurements_page store oid none = pageItems (measurements_qs store oid) 50 1) ∧
    (∀ n : Int, n < 1 →
      measurements_page store oid (some n) = pageItems (measurements_qs store oid) 50 1) ∧
    (∀ n : Int, (num_pages (measurements_qs store oid).length 50 : Int) < n →
      measurements_page store oid (some n) = pageItems (measurements_qs store oid) 50 1) ∧
    (∀ n : Int, 1 ≤ n → n ≤ (num_pages (measurements_qs store oid).length 50 : Int) →
      measurements_page store oid (some n) =
        pageItems (measurements_qs store oid) 50 n.toNat) ∧
    (measurements_qs store oid).Sorted
      (fun m1 m2 => m2.timestamp.code ≤ m1.timestamp.code) := by
  refine ⟨?_, ?_, ?_, ?_, ?_, ?_, ?_, ?_, ?_, ?_⟩
  · rw [alerts_page, view_page_notAnInteger]
  · intro n hn
    rw [alerts_page, view_page_lt_one _ _ _ hn]
  · intro n hn
    rw [alerts_page, view_page_beyond _ _ _ (by norm_num) hn]
  · intro n h1 h2
    rw [alerts_page, view_page_in_range _ _ _ h1 h2]
  · exact sortDescBy_sorted (fun a => a.created_at.code) (tenantAlerts store oid)
  · rw [measurements_page, view_page_notAnInteger]
  · intro n hn
    rw [measurements_page, view_page_lt_one _ _ _ hn]
  · intro n hn
    rw [measurements_page, view_page_beyond _ _ _ (by norm_num) hn]
  · intro n h1 h2
    rw [measurements_page, view_page_in_range _ _ _ h1 h2]
  · exact sortDescBy_sorted (fun m => m.timestamp.code) (tenantMeasurements store oid)

/-- C5 witness: on the sample store, page 99 and page 0 of the alerts clamp
to page 1, and in-range page 1 of the measurements is the first slice. -/
theorem c5_witness :
    alerts_page exStore 1 (some 99) =
      (pageItems (alerts_qs exStore 1) 20 1).map normalizeAlert ∧
    alerts_page exStore 1 (some 0) =
      (pageItems (alerts_qs exStore 1) 20 1).map normalizeAlert ∧
    measurements_page exStore 1 (some 1) = pageItems (measurements_qs exStore 1) 50 1 := by
  obtain ⟨h1, h2, h3, h4, h5, h6, h7, h8, h9, h10⟩ := c5_pagination exStore 1
  refine ⟨h3 99 (by decide), h2 0 (by decide), ?_⟩
  have h := h9 1 (by decide) (by decide)
  simpa using h

/-- C7 counterexample: a submission whose password is empty and whose
confirmation is a different non-empty string is a mismatch, yet form
validation attaches no error to the confirmation field (only the required
error on `password`), contradicting the claim that every mismatch yields a
confirmation-field error. -/
theorem c7_counterexample :
    mismatchEmptyPasswordForm.password ≠ mismatchEmptyPasswordForm.confirm_password ∧
    (form_errors emptyStore mismatchEmptyPasswordForm).all
      (fun e => e.1 != "confirm_password") = true ∧
    (register_organization emptyStore mismatchEmptyPasswordForm).2 = emptyStore := by
  decide

/-- C7 (amended): whenever password and confirmation differ nothing is
persisted (the store is returned unchanged), and when both fields are
non-empty the mismatch error is attached to the confirmation field;
furthermore every successful registration appends exactly one organization
whose stored password is the one-way hash of the submitted password, never
the raw value. -/
theorem c7_registration (store : Store) (f : RegForm) :
    (f.password ≠ f.confirm_password →
      (register_organization store f).2 = store ∧
      (f.password ≠ "" → f.confirm_password ≠ "" →
        ("confirm_password", "Las contraseñas no coinciden") ∈ form_errors store f)) ∧
    ((register_organization store f).1 = .redirectRegister →
      (register_organization store f).2.organizations =
        store.organizations ++
          [{ id := next_pk store, name := f.name, email := f.email,
              password := make_password f.password }] ∧
      make_password f.password ≠ f.password) := by
  constructor
  · intro hne
    have herr : form_errors store f ≠ [] := by
      unfold form_errors
      by_cases hp : f.password = ""
      · by_cases hcp : f.confirm_password = ""
        · exact absurd (hp.trans hcp.symm) hne
        · simp [requiredErrors, hp]
      · by_cases hcp : f.confirm_password = ""
        · simp [requiredErrors, hcp]
        · simp [cleanErrors, hp, hcp, hne]
    have hie : (form_errors store f).isEmpty = false := by
      cases hh : form_errors store f with
      | nil => exact absurd hh herr
      | cons a l => rfl
    constructor
    · simp [register_organization, hie]
    · intro hp hcp
      have hclean : cleanErrors f = [("confirm_password", "Las contraseñas no coinciden")] := by
        simp [cleanErrors, hp, hcp, hne]
      unfold form_errors
      rw [hclean]
      simp
  · intro hsucc
    by_cases hie : (form_errors store f).isEmpty
    · constructor
      · simp [register_organization, hie]
      · exact make_password_ne f.password
    · exfalso
      simp [register_organization, hie] at hsucc

/-- C7 witness: a concrete mismatched submission persists nothing and yields
the confirmation-field error, and a concrete successful registration stores
the hashed password. -/
theorem c7_witness :
    (register_organization emptyStore
        { name := "Acme", email := "a@example.com", password := "a",
          confirm_password := "b" }).2 = emptyStore ∧
    ("confirm_password", "Las contraseñas no coinciden") ∈
      form_errors emptyStore
        { name := "Acme", email := "a@example.com", password := "a",
          confirm_password := "b" } ∧
    (register_organization emptyStore
        { name := "New", email := "n@example.com", password := "pw",
          confirm_password := "pw" }).2.organizations =
      emptyStore.organizations ++
        [{ id := next_pk emptyStore, name := "New", email := "n@example.com",
            password := make_password "pw" }] := by
  obtain ⟨h1, _⟩ := c7_registration emptyStore
    { name := "Acme", email := "a@example.com", password := "a", confirm_password := "b" }
  obtain ⟨h1a, h1b⟩ := h1 (by decide)
  obtain ⟨_, h2⟩ := c7_registration emptyStore
    { name := "New", email := "n@example.com", password := "pw", confirm_password := "pw" }
  obtain ⟨h2a, _⟩ := h2 (by decide)
  exact ⟨h1a, h1b (by decide) (by decide), h2a⟩

/-- C8: the recent-measurement views are a newest-first ordering of the
tenant's rows, truncated to 10 (dashboard) and 50 (list preview) and
flattened; the displayed timestamp is the strftime rendering of the probed
capture time (`fecha_hora` falling back to the mandatory `timestamp`
column); the numeric value is the first present of the `valor`/`value`/
`reading` aliases, the dashboard leaving the Python `None` and the list view
substituting the empty cell when all are absent; in particular a row
carrying only the legacy `reading` alias still surfaces a non-empty value;
and every entry carries the owning device's display name and id. -/
theorem c8_recent_measurements (store : Store) (oid : Nat) :
    (∃ qs : List MeasurementRow,
      qs.Sorted (fun m1 m2 => m2.timestamp.code ≤ m1.timestamp.code) ∧
      qs.Perm (tenantMeasurements store oid) ∧
      ultimas_mediciones_dash store oid = (qs.take 10).map (flattenDash store) ∧
      ultimas_mediciones_list store oid = (qs.take 50).map (flattenList store)) ∧
    (ultimas_mediciones_dash store oid).length ≤ 10 ∧
    (ultimas_mediciones_list store oid).length ≤ 50 ∧
    (∀ m : MeasurementRow, (flattenDash store m).fecha_hora =
      DateTime.strftime (m.fecha_hora.getD m.timestamp) ∧
      (flattenList store m).fecha_hora =
        DateTime.strftime (m.fecha_hora.getD m.timestamp)) ∧
    (∀ m : MeasurementRow, rowValor m = m.valor.or (m.value.or m.reading)) ∧
    (∀ m : MeasurementRow, m.valor = none → m.value = none → m.reading = none →
      (flattenDash store m).valor = none ∧ (flattenList store m).valor = .emptyStr) ∧
    (∀ (m : MeasurementRow) (v : Int), m.valor = none → m.value = none →
      m.reading = some v →
      (flattenDash store m).valor = some v ∧ (flattenList store m).valor = .num v) ∧
    (∀ m ∈ tenantMeasurements store oid, ∃ d ∈ store.devices, d.id = m.deviceId ∧
      (flattenDash store m).dispositivo = d.name ∧
      (flattenDash store m).device_id = some d.id) := by
  refine ⟨⟨measurements_qs store oid, ?_, ?_, rfl, rfl⟩, ?_, ?_, ?_, ?_, ?_, ?_, ?_⟩
  · exact sortDescBy_sorted (fun m => m.timestamp.code) (tenantMeasurements store oid)
  · exact sortDescBy_perm (fun m => m.timestamp.code) (tenantMeasurements store oid)
  · calc (ultimas_mediciones_dash store oid).length
        = ((measurements_qs store oid).take 10).length := by
          simp [ultimas_mediciones_dash]
      _ ≤ 10 := List.length_take_le 10 _
  · calc (ultimas_mediciones_list store oid).length
        = ((measurements_qs store oid).take 50).length := by
          simp [ultimas_mediciones_list]
      _ ≤ 50 := List.length_take_le 50 _
  · intro m
    constructor <;> simp [flattenDash, flattenList, fechaStr, rowFecha_eq]
  · exact rowValor_eq
  · intro m hva hvl hrd
    constructor <;>
      simp [flattenDash, flattenList, rowValor_eq, hva, hvl, hrd, Option.or]
  · intro m v hva hvl hrd
    constructor <;>
      simp [flattenDash, flattenList, rowValor_eq, hva, hvl, hrd, Option.or]
  · intro m hm
    have hmf := List.mem_filter.mp hm
    have horg : rowOrgId store m.deviceId = some oid := by
      have := hmf.2
      exact eq_of_beq (by simpa using this)
    obtain ⟨d, hfind, hdmem, hdid, _⟩ := rowOrgId_device store m.deviceId oid horg
    refine ⟨d, hdmem, hdid, ?_, ?_⟩
    · simp [flattenDash, rowDeviceName, hfind]
    · simp [flattenDash, rowDeviceId, hfind]

/-- C8 witness: the dashboard list of the sample store respects the limit,
and the legacy row (only `reading` present) surfaces the non-empty value 5
in both flattened forms. -/
theorem c8_witness :
    (ultimas_mediciones_dash exStore 1).length ≤ 10 ∧
    (flattenDash exStore exRowLegacy).valor = some 5 ∧
    (flattenList exStore exRowLegacy).valor = .num 5 := by
  obtain ⟨_, h2, _, _, _, _, h7, _⟩ := c8_recent_measurements exStore 1
  obtain ⟨ha, hb⟩ := h7 exRowLegacy 5 rfl rfl rfl
  exact ⟨h2, ha, hb⟩

end Eco
